import Mathlib

/-!
Verification of the campaign dispatch and engagement-tracking engine of the
xsmart_mail repository: a shallow embedding of the tracking data model, the
analytics formulas, the campaign-timing computations of the frontend, and the
status poller, together with theorems settling the specified properties.
-/

/-- JavaScript `a || b` on numbers: `0` (and `undefined`, modelled as `0`)
is falsy, any other number is returned unchanged. -/
def jsOr (a b : Nat) : Nat := if a = 0 then b else a

/-! ## Tracking records (from `src/backend_code/database_schema.md`, the
`email_tracking` collection, and `src/backend_code/BOUNCE_TRACKING_FIX.md`) -/

/-- Result of the synchronous Graph API send call for one tracking record.
Per BOUNCE_TRACKING_FIX.md: an API error marks the record bounced
immediately; a success marks it sent (bounced = false) until a bounce
notification arrives. -/
inductive SendResult
  | success
  | apiError
  deriving DecidableEq, Repr

/-- One document of the `email_tracking` collection, restricted to the fields
the verified properties touch: the send outcome, whether a bounce
notification was later matched to it, and the open counters. -/
structure EmailTracking where
  sendResult : SendResult
  bounceNotified : Bool
  opens : Nat
  first_open_at : Option Nat
  clicks : Nat
  first_click_at : Option Nat
  deriving DecidableEq, Repr

/-- The `bounced` flag stored on a tracking document: set immediately on a
Graph API error, or when the bounce reconciler matches a notification
(BOUNCE_TRACKING_FIX.md, How It Works Now). -/
def EmailTracking.bounced (r : EmailTracking) : Bool :=
  match r.sendResult with
  | .apiError => true
  | .success => r.bounceNotified

/-- The delivery outcome of a record in the vocabulary of the specification:
`pending | sent | bounced | application_error`. -/
inductive DeliveryOutcome
  | pending
  | sent
  | bounced
  | application_error
  deriving DecidableEq, Repr

/-- Classification of a tracking document by its delivery outcome: a
synchronous API failure is an application error, a matched bounce
notification a bounce, anything else was sent. (Tracking documents are
created at send time, so none is pending.) -/
def EmailTracking.outcome (r : EmailTracking) : DeliveryOutcome :=
  match r.sendResult with
  | .apiError => .application_error
  | .success => if r.bounceNotified then .bounced else .sent

/-- Number of tracking documents of a campaign. -/
def total_tracking (recs : List EmailTracking) : Nat := recs.length

/-- Number of tracking documents carrying the `bounced` flag. -/
def bounce_count (recs : List EmailTracking) : Nat :=
  recs.countP (fun r => r.bounced)

/-- The analytics `total_sent`, computed as in BOUNCE_TRACKING_FIX.md:
`total_sent = total_tracking - bounce_count`. -/
def total_sent (recs : List EmailTracking) : Nat :=
  total_tracking recs - bounce_count recs

/-- Number of tracking documents with a given delivery outcome. -/
def countOutcome (o : DeliveryOutcome) (recs : List EmailTracking) : Nat :=
  recs.countP (fun r => r.outcome == o)

theorem tracking_counts (recs : List EmailTracking) :
    bounce_count recs =
      countOutcome .bounced recs + countOutcome .application_error recs ∧
    countOutcome .sent recs + bounce_count recs = total_tracking recs := by
  induction recs with
  | nil => simp [bounce_count, countOutcome, total_tracking]
  | cons r rest ih =>
    obtain ⟨ih1, ih2⟩ := ih
    cases hsr : r.sendResult <;> cases hbn : r.bounceNotified <;>
      simp [bounce_count, countOutcome, total_tracking, List.countP_cons,
        EmailTracking.bounced, EmailTracking.outcome, hsr, hbn] at * <;>
      omega

/-- Claim C1: for every campaign, the aggregate `total_sent` equals the number
of tracking records whose delivery outcome is `sent`; records whose outcome is
`bounced` and records whose outcome is `application_error` are both excluded,
since both carry the `bounced` flag that the formula subtracts. -/
theorem total_sent_eq_countOutcome_sent (recs : List EmailTracking) :
    total_sent recs = countOutcome .sent recs ∧
    total_sent recs =
      total_tracking recs -
        (countOutcome .bounced recs + countOutcome .application_error recs) := by
  obtain ⟨h1, h2⟩ := tracking_counts recs
  unfold total_sent
  omega

/-! ## Duration warning (from the `DurationWarning` component and its use in
`ScheduleStep`) -/

/-- The quantity `minutesNeeded = (totalRecipients - 1) * sendInterval`, computed over the
integers as JavaScript arithmetic does (zero recipients give a negative
value). -/
def minutesNeeded (totalRecipients sendInterval : Nat) : Int :=
  ((totalRecipients : Int) - 1) * (sendInterval : Int)

/-- The quantity `hoursNeeded = minutesNeeded / 60` as an exact rational. -/
def hoursNeeded (totalRecipients sendInterval : Nat) : ℚ :=
  (minutesNeeded totalRecipients sendInterval : ℚ) / 60

/-- The flag `isInsufficient = hoursNeeded > duration`; the component returns null and
renders nothing exactly when this is false. -/
def isInsufficient (totalRecipients sendInterval duration : Nat) : Bool :=
  decide (hoursNeeded totalRecipients sendInterval > (duration : ℚ))

/-- The duration warning alert is rendered iff `isInsufficient` holds
(`if (!isInsufficient) return null`). -/
def durationWarningRendered (totalRecipients sendInterval duration : Nat) : Bool :=
  isInsufficient totalRecipients sendInterval duration

theorem durationWarning_cond (n i d : Nat) :
    durationWarningRendered n i d = true ↔
      (i : Int) * ((n : Int) - 1) > (d : Int) * 60 := by
  unfold durationWarningRendered isInsufficient hoursNeeded minutesNeeded
  rw [decide_eq_true_iff, gt_iff_lt,
    lt_div_iff₀ (by norm_num : (0 : ℚ) < 60), gt_iff_lt, Int.mul_comm]
  constructor
  · intro h
    exact_mod_cast h
  · intro h
    exact_mod_cast h

/-- Claim C3: the duration-insufficiency alert is rendered exactly when
`sendInterval * (totalRecipients - 1)` exceeds the duration converted to
minutes; in particular 10 recipients at a 10-minute interval with a 1-hour
duration are flagged, while 10 recipients at a 5-minute interval with a
1-hour duration are not. -/
theorem durationWarningRendered_iff :
    (∀ n i d : Nat,
      durationWarningRendered n i d = true ↔
        (i : Int) * ((n : Int) - 1) > (d : Int) * 60) ∧
    durationWarningRendered 10 10 1 = true ∧
    durationWarningRendered 10 5 1 = false := by
  refine ⟨durationWarning_cond, ?_, ?_⟩
  · rw [durationWarning_cond]
    norm_num
  · have h : ¬ (durationWarningRendered 10 5 1 = true) := by
      rw [durationWarning_cond]
      norm_num
    simpa using h

/-! ## Campaign end time and active-window checks (from the dashboard page,
`ScheduleStep`, `ReviewStep` and the new-campaign `handleFinish`) -/

/-- Campaign lifecycle status values observed across the frontend and the
database schema document. -/
inductive CampaignStatus
  | scheduled
  | active
  | completed
  | stopped
  | paused
  | cancelled
  deriving DecidableEq, Repr

/-- The campaign fields the dashboard timing logic reads: `status`,
`start_time` (absent modelled as `none`; present as epoch milliseconds) and
`duration` in hours (absent or zero is falsy in JavaScript). -/
structure Campaign where
  status : CampaignStatus
  start_time : Option Int
  duration : Nat
  deriving DecidableEq, Repr

/-- End time of the `ScheduleStep` timeline:
`startTime.getTime() + (data.duration || 24) * 60 * 60 * 1000`. -/
def scheduleStepEndTime (start : Int) (duration : Nat) : Int :=
  start + (jsOr duration 24 : Int) * 60 * 60 * 1000

/-- End time of the `ReviewStep` duration card:
`startTime.getTime() + (data.duration || 24) * 60 * 60 * 1000`. -/
def reviewStepEndTime (start : Int) (duration : Nat) : Int :=
  start + (jsOr duration 24 : Int) * 60 * 60 * 1000

/-- End time in the dashboard active-window check:
`startTime.getTime() + campaign.duration * 60 * 60 * 1000` (the filter has
already returned false when `duration` is falsy). -/
def dashboardEndTime (start : Int) (duration : Nat) : Int :=
  start + (duration : Int) * 60 * 60 * 1000

/-- Claim C6: for every campaign (every positive duration, written `d + 1`),
the schedule step, the review step and the dashboard active-window check all
compute the same end time, `start_time` plus the duration in hours converted
to milliseconds. -/
theorem endTime_agree (start : Int) (d : Nat) :
    scheduleStepEndTime start (d + 1) = start + ((d : Int) + 1) * 60 * 60 * 1000 ∧
    reviewStepEndTime start (d + 1) = start + ((d : Int) + 1) * 60 * 60 * 1000 ∧
    dashboardEndTime start (d + 1) = start + ((d : Int) + 1) * 60 * 60 * 1000 := by
  unfold scheduleStepEndTime reviewStepEndTime dashboardEndTime jsOr
  norm_num

/-- The dashboard active-campaign count filter (`DashboardPage`, lines 24-32):
a stopped campaign is never active; a campaign without `start_time` or
`duration` is not active; otherwise active means `now` lies within
`[startTime, endTime]`. -/
def dashboardCountsActive (now : Int) (c : Campaign) : Bool :=
  if c.status = .stopped then false
  else
    match c.start_time with
    | none => false
    | some st =>
      if c.duration = 0 then false
      else decide (st ≤ now) && decide (now ≤ dashboardEndTime st c.duration)

/-- The per-campaign Active badge on the dashboard (lines 373-384): rendered
only when `start_time` and `duration` are truthy, and then iff the status is
not stopped and `now` lies within the window. -/
def dashboardActiveBadge (now : Int) (c : Campaign) : Bool :=
  match c.start_time with
  | none => false
  | some st =>
    if c.duration = 0 then false
    else
      decide (c.status ≠ .stopped) && decide (st ≤ now) &&
        decide (now ≤ dashboardEndTime st c.duration)

/-- The pre-launch check in `handleFinish` (lines 862-873): a campaign counts
as currently active iff `start_time` and `duration` are truthy and `now` lies
within the window — the status field is never consulted. -/
def preLaunchCountsActive (now : Int) (c : Campaign) : Bool :=
  match c.start_time with
  | none => false
  | some st =>
    if c.duration = 0 then false
    else decide (st ≤ now) && decide (now ≤ dashboardEndTime st c.duration)

/-- Claim C4, counterexample: a stopped campaign whose window contains the
current time is counted as currently running by the pre-launch check of the
campaign-creation flow, so the claim that every consumer excludes stopped
campaigns is false. -/
theorem preLaunch_counts_stopped_campaign :
    preLaunchCountsActive 0
      { status := .stopped, start_time := some 0, duration := 1 } = true := by
  decide

/-- Claim C4, amended: the dashboard active-campaign count and the Active
badge never treat a stopped campaign as active, but the pre-launch check in
campaign creation ignores the status field entirely, so it counts a stopped
campaign exactly as it would count the same campaign when active. -/
theorem stopped_excluded_except_preLaunch (now : Int) (c : Campaign) :
    dashboardCountsActive now { c with status := .stopped } = false ∧
    dashboardActiveBadge now { c with status := .stopped } = false ∧
    preLaunchCountsActive now { c with status := .stopped } =
      preLaunchCountsActive now { c with status := .active } := by
  refine ⟨?_, ?_, ?_⟩ <;>
    cases c.start_time <;>
      simp [dashboardCountsActive, dashboardActiveBadge, preLaunchCountsActive]

/-! ## Campaign creation flow (from `NewCampaignPage.handleFinish`) -/

/-- What the user observes from one run of `handleFinish`: whether the
pre-launch confirmation dialog was shown, whether the creation request was
sent to the backend, and whether the response warning toast was shown. -/
structure FinishOutcome where
  confirmShown : Bool
  requestSent : Bool
  warningToastShown : Bool
  deriving DecidableEq, Repr

/-- The function `handleFinish` (lines 862-960): when at least one campaign is currently
active a confirmation dialog is shown, and the flow returns without sending
anything iff the user declines; otherwise the creation request is sent, and
the warning toast is shown iff the response carries a warning. -/
def handleFinish (activeCount : Nat) (userConfirms : Bool)
    (respWarning : Bool) : FinishOutcome :=
  if activeCount > 0 then
    if userConfirms then
      { confirmShown := true, requestSent := true, warningToastShown := respWarning }
    else
      { confirmShown := true, requestSent := false, warningToastShown := false }
  else
    { confirmShown := false, requestSent := true, warningToastShown := respWarning }

/-- Claim C9: creation is never rejected because other campaigns are active —
the request is sent whenever no campaign is active or the user confirms; the
pre-launch confirmation is shown exactly when some campaign is active; and
the response warning produces a non-fatal toast exactly when the request was
sent and the response carried a warning. -/
theorem handleFinish_behavior (activeCount : Nat) (userConfirms respWarning : Bool) :
    (handleFinish activeCount userConfirms respWarning).requestSent =
      (decide (activeCount = 0) || userConfirms) ∧
    (handleFinish activeCount userConfirms respWarning).confirmShown =
      decide (0 < activeCount) ∧
    (handleFinish activeCount userConfirms respWarning).warningToastShown =
      ((decide (activeCount = 0) || userConfirms) && respWarning) := by
  cases activeCount with
  | zero => simp [handleFinish]
  | succ n =>
    cases userConfirms <;> cases respWarning <;> simp [handleFinish]

/-! ## Click-rate and open-rate displays (from the campaign detail page) -/

/-- The campaign fields the metric cards read (absent modelled as `0`). -/
structure CampaignView where
  successfully_sent : Nat
  total_sent : Nat
  clicked : Nat
  deriving DecidableEq, Repr

/-- The analytics-snapshot fields the metric cards read (absent as `0`). -/
structure AnalyticsView where
  successfully_sent : Nat
  unique_clicks : Nat
  unique_opens : Nat
  deriving DecidableEq, Repr

/-- The Click Rate card (campaign detail page, lines 216-219): guarded by
`(campaign.successfully_sent || campaign.total_sent || analytics?.successfully_sent || 0) > 0`,
then `(campaign.clicked || analytics?.unique_clicks || 0)` divided by
`(campaign.successfully_sent || campaign.total_sent || analytics?.successfully_sent || 1)`
times 100, else `0`. -/
def clickRateCard (c : CampaignView) (a : AnalyticsView) : ℚ :=
  if jsOr c.successfully_sent (jsOr c.total_sent (jsOr a.successfully_sent 0)) > 0 then
    ((jsOr c.clicked (jsOr a.unique_clicks 0) : ℚ) /
        (jsOr c.successfully_sent (jsOr c.total_sent (jsOr a.successfully_sent 1)) : ℚ)) *
      100
  else 0

/-- The Click Rate row of the Engagement Metrics card (lines 474-477):
`analytics.unique_clicks / analytics.successfully_sent * 100` when both are
positive, else `0`. -/
def clickRateEngagement (a : AnalyticsView) : ℚ :=
  if a.successfully_sent > 0 ∧ a.unique_clicks > 0 then
    ((a.unique_clicks : ℚ) / (a.successfully_sent : ℚ)) * 100
  else 0

/-- Modelled from the spec: the backend Analytics Aggregator computes
`open_rate = unique_opens / total_sent * 100`, guarded to `0` when
`total_sent == 0`. The Flask backend implementing it is not part of this
repository snapshot; only its documentation under `src/backend_code` is. -/
def openRateSpec (unique_opens totalSent : Nat) : ℚ :=
  if totalSent = 0 then 0 else ((unique_opens : Nat) : ℚ) / (totalSent : ℚ) * 100

theorem jsOr_last_one_of_pos (a b c : Nat) (h : jsOr a (jsOr b (jsOr c 0)) ≠ 0) :
    jsOr a (jsOr b (jsOr c 1)) = jsOr a (jsOr b (jsOr c 0)) := by
  unfold jsOr at *
  split_ifs at * <;> omega

/-- Claim C5: for every combination of counts, the displayed click rate — both
the metric card and the engagement bar — equals `unique_clicks / total_sent *
100` computed from the resolved counts, and is `0` (not undefined and not a
division error) whenever the resolved `total_sent` is `0`; the spec-modelled
backend open rate is likewise `0` when `total_sent` is `0`. -/
theorem clickRate_eq_formula (c : CampaignView) (a : AnalyticsView) (opens : Nat) :
    clickRateCard c a =
      (if jsOr c.successfully_sent (jsOr c.total_sent (jsOr a.successfully_sent 0)) = 0
        then 0
        else
          ((jsOr c.clicked (jsOr a.unique_clicks 0) : ℚ) /
              (jsOr c.successfully_sent (jsOr c.total_sent (jsOr a.successfully_sent 0)) : ℚ)) *
            100) ∧
    clickRateEngagement a =
      (if a.successfully_sent = 0 then 0
        else ((a.unique_clicks : ℚ) / (a.successfully_sent : ℚ)) * 100) ∧
    openRateSpec opens 0 = 0 := by
  refine ⟨?_, ?_, by simp [openRateSpec]⟩
  · unfold clickRateCard
    by_cases h : jsOr c.successfully_sent (jsOr c.total_sent (jsOr a.successfully_sent 0)) = 0
    · simp [h]
    · rw [jsOr_last_one_of_pos _ _ _ h]
      have hpos : jsOr c.successfully_sent (jsOr c.total_sent (jsOr a.successfully_sent 0)) > 0 :=
        Nat.pos_of_ne_zero h
      simp [hpos, h]
  · unfold clickRateEngagement
    by_cases hs : a.successfully_sent = 0
    · simp [hs]
    · by_cases hc : a.unique_clicks = 0
      · simp [hs, hc]
      · simp [hs, hc, Nat.pos_of_ne_zero hs, Nat.pos_of_ne_zero hc]

/-! ## Outcome partition and the visible summary totals (from
`updateTrackingSummary` in `database_schema.md` and the spec store model) -/

/-- Modelled from the spec: the campaign store holds one tracking record per
recipient, created atomically at submission, each carrying exactly one
delivery outcome; the list below is the multiset of those outcomes. The
dispatcher backend maintaining it is not part of this repository snapshot. -/
def countO (o : DeliveryOutcome) (store : List DeliveryOutcome) : Nat :=
  store.count o

/-- The campaign-summary payload read by `updateTrackingSummary` (absent
fields modelled as `0`). -/
structure CampaignData where
  total_mails : Nat
  total_sent : Nat
  bounce_count : Nat
  successfully_sent : Nat
  total_bounced : Nat
  total_recipients : Nat
  deriving DecidableEq, Repr

/-- The prominent total of `updateTrackingSummary`:
`campaignData.total_mails || campaignData.total_sent + (campaignData.bounce_count || 0)`. -/
def visibleTotalMails (cd : CampaignData) : Nat :=
  jsOr cd.total_mails (cd.total_sent + jsOr cd.bounce_count 0)

/-- The displayed `campaignData.successfully_sent || campaignData.total_sent || 0`. -/
def visibleSuccessfullySent (cd : CampaignData) : Nat :=
  jsOr cd.successfully_sent (jsOr cd.total_sent 0)

/-- The displayed `campaignData.total_bounced || campaignData.bounce_count || 0`. -/
def visibleTotalBounced (cd : CampaignData) : Nat :=
  jsOr cd.total_bounced (jsOr cd.bounce_count 0)

/-- Claim C2, counterexample: a campaign of two recipients, one sent and one
still pending — so `total_sent = 1`, `bounce_count = 0`, `total_recipients =
2`, no backend-supplied `total_mails` — makes the visible summary total `1`,
not `total_recipients = 2`: the user-visible totals do not always sum to
`total_recipients`. -/
theorem visibleTotals_not_total_recipients :
    countO .sent [DeliveryOutcome.sent, DeliveryOutcome.pending] = 1 ∧
    countO .bounced [DeliveryOutcome.sent, DeliveryOutcome.pending] = 0 ∧
    [DeliveryOutcome.sent, DeliveryOutcome.pending].length = 2 ∧
    visibleTotalMails
        { total_mails := 0, total_sent := 1, bounce_count := 0,
          successfully_sent := 1, total_bounced := 0, total_recipients := 2 } ≠
      ({ total_mails := 0, total_sent := 1, bounce_count := 0,
          successfully_sent := 1, total_bounced := 0,
          total_recipients := 2 } : CampaignData).total_recipients := by
  refine ⟨by decide, by decide, by decide, by decide⟩

theorem countO_partition (store : List DeliveryOutcome) :
    countO .sent store + countO .bounced store + countO .application_error store +
      countO .pending store = store.length := by
  induction store with
  | nil => simp [countO]
  | cons o rest ih =>
    cases o <;> simp [countO, List.count_cons] at ih ⊢ <;> omega

/-- Claim C2, amended: in the store model the four outcome counts always
partition the recipient set — their sum is `total_recipients` — but the
user-visible totals are derived from tracking records alone
(`total_mails = total_sent + bounce_count` when the backend supplies no
total), so they equal `total_recipients` exactly when no record is pending
and none is an application error. -/
theorem outcome_partition_and_visible_totals (store : List DeliveryOutcome)
    (cd : CampaignData) (hm : cd.total_mails = 0)
    (hs : cd.total_sent = countO .sent store)
    (hb : cd.bounce_count = countO .bounced store)
    (hr : cd.total_recipients = store.length) :
    countO .sent store + countO .bounced store + countO .application_error store +
        countO .pending store = cd.total_recipients ∧
    (visibleTotalMails cd = cd.total_recipients ↔
      countO .pending store + countO .application_error store = 0) := by
  have hpart := countO_partition store
  refine ⟨by omega, ?_⟩
  have hvm : visibleTotalMails cd = cd.total_sent + cd.bounce_count := by
    unfold visibleTotalMails jsOr
    rw [hm]
    split_ifs <;> omega
  rw [hvm, hs, hb, hr]
  omega


theorem outcome_partition_visible_witness :
    countO .sent [DeliveryOutcome.sent] + countO .bounced [DeliveryOutcome.sent] +
        countO .application_error [DeliveryOutcome.sent] +
        countO .pending [DeliveryOutcome.sent] = 1 ∧
      (visibleTotalMails
            { total_mails := 0, total_sent := 1, bounce_count := 0,
              successfully_sent := 1, total_bounced := 0, total_recipients := 1 } = 1 ↔
        countO .pending [DeliveryOutcome.sent] +
            countO .application_error [DeliveryOutcome.sent] = 0) := by
  simpa using
    outcome_partition_and_visible_totals [DeliveryOutcome.sent]
      { total_mails := 0, total_sent := 1, bounce_count := 0,
        successfully_sent := 1, total_bounced := 0, total_recipients := 1 }
      rfl (by decide) (by decide) rfl

/-! ## Open tracking endpoint (spec-modelled; the Flask backend `app.py`
serving `GET /api/track/open/...` is not part of this snapshot, only the
endpoint list in `src/backend_code/TEST_API_README.md`) -/

/-- Modelled from the spec: the open tracking endpoint handler. A request
bearing a tracking id atomically increments `opens` and, only if
`first_open_at` is unset, sets it to the event time; later calls never change
`first_open_at`. -/
def trackOpen (eventTime : Nat) (r : EmailTracking) : EmailTracking :=
  { r with
    opens := r.opens + 1
    first_open_at :=
      match r.first_open_at with
      | none => some eventTime
      | some u => some u }

/-- Applying the open endpoint once per event time, in order. -/
def trackOpenEvents (eventTimes : List Nat) (r : EmailTracking) : EmailTracking :=
  eventTimes.foldl (fun acc t => trackOpen t acc) r

theorem opens_trackOpenEvents (eventTimes : List Nat) (r : EmailTracking) :
    (trackOpenEvents eventTimes r).opens = r.opens + eventTimes.length := by
  induction eventTimes generalizing r with
  | nil => simp [trackOpenEvents]
  | cons t rest ih =>
    have h := ih (trackOpen t r)
    show (trackOpenEvents rest (trackOpen t r)).opens = r.opens + (rest.length + 1)
    rw [h]
    show r.opens + 1 + rest.length = r.opens + (rest.length + 1)
    omega

theorem first_open_stable (eventTimes : List Nat) (r : EmailTracking) (u : Nat)
    (h : r.first_open_at = some u) :
    (trackOpenEvents eventTimes r).first_open_at = some u := by
  induction eventTimes generalizing r with
  | nil => simpa [trackOpenEvents] using h
  | cons t rest ih =>
    have hstep : (trackOpen t r).first_open_at = some u := by
      simp [trackOpen, h]
    simpa [trackOpenEvents, List.foldl_cons] using ih (trackOpen t r) hstep

/-- Claim C7: calling the open endpoint once per event time on a fresh record
leaves `opens` equal to the number of calls, while `first_open_at` keeps the
time of the first call; the later calls only increment the counter. -/
theorem trackOpen_idempotent_first_open (t0 : Nat) (laterTimes : List Nat)
    (r : EmailTracking) (hopens : r.opens = 0) (hfirst : r.first_open_at = none) :
    (trackOpenEvents (t0 :: laterTimes) r).opens = laterTimes.length + 1 ∧
    (trackOpenEvents (t0 :: laterTimes) r).first_open_at = some t0 := by
  constructor
  · have h := opens_trackOpenEvents (t0 :: laterTimes) r
    simp [hopens] at h
    omega
  · have hstep : (trackOpen t0 r).first_open_at = some t0 := by
      simp [trackOpen, hfirst]
    simpa [trackOpenEvents, List.foldl_cons] using
      first_open_stable laterTimes (trackOpen t0 r) t0 hstep

theorem trackOpen_idempotent_first_open_witness :
    (trackOpenEvents [5, 7, 9]
          { sendResult := .success, bounceNotified := false, opens := 0,
            first_open_at := none, clicks := 0, first_click_at := none }).opens = 3 ∧
    (trackOpenEvents [5, 7, 9]
          { sendResult := .success, bounceNotified := false, opens := 0,
            first_open_at := none, clicks := 0, first_click_at := none }).first_open_at =
      some 5 := by
  simpa using
    trackOpen_idempotent_first_open 5 [7, 9]
      { sendResult := .success, bounceNotified := false, opens := 0,
        first_open_at := none, clicks := 0, first_click_at := none }
      rfl rfl

/-! ## Campaign status poller (from `useCampaignStatus` in `hooks.ts` and
`CampaignCard`) -/

/-- The `refetchInterval` callback of `useCampaignStatus`: poll again in 5000
milliseconds if the most recently returned status is active or scheduled,
otherwise stop polling (`false`, modelled as `none`; a query with no data yet
also stops). -/
def refetchInterval (data : Option CampaignStatus) : Option Nat :=
  match data with
  | some s =>
    if s = CampaignStatus.active ∨ s = CampaignStatus.scheduled then some 5000
    else none
  | none => none

/-- The fetch sequence the poller produces when the endpoint would return the
given statuses in order: each result is observed, and the next fetch happens
iff `refetchInterval` of that result is a number. -/
def pollTrace : List CampaignStatus → List CampaignStatus
  | [] => []
  | s :: rest =>
    s ::
      match refetchInterval (some s) with
      | some _ => pollTrace rest
      | none => []

/-- Claim C8: the poller re-polls, at a 5000 millisecond interval, exactly
while the returned status is active or scheduled; the first other status is
observed and no further poll is scheduled after it. -/
theorem pollTrace_stops_at_first_inactive (pre : List CampaignStatus)
    (s : CampaignStatus) (rest : List CampaignStatus)
    (hpre : ∀ x ∈ pre, x = CampaignStatus.active ∨ x = CampaignStatus.scheduled)
    (hs1 : s ≠ CampaignStatus.active) (hs2 : s ≠ CampaignStatus.scheduled) :
    pollTrace (pre ++ s :: rest) = pre ++ [s] ∧
    ∀ x ∈ pre, refetchInterval (some x) = some 5000 := by
  induction pre with
  | nil =>
    refine ⟨?_, by simp⟩
    simp [pollTrace, refetchInterval, hs1, hs2]
  | cons p ps ih =>
    have hp : p = CampaignStatus.active ∨ p = CampaignStatus.scheduled :=
      hpre p (by simp)
    have hps : ∀ x ∈ ps, x = CampaignStatus.active ∨ x = CampaignStatus.scheduled :=
      fun x hx => hpre x (by simp [hx])
    obtain ⟨ih1, ih2⟩ := ih hps
    have hpint : refetchInterval (some p) = some 5000 := by
      simp [refetchInterval, hp]
    refine ⟨?_, ?_⟩
    · simp only [List.cons_append, pollTrace, hpint]
      simp [ih1]
    · intro x hx
      rcases List.mem_cons.mp hx with h | h
      · rw [h]; exact hpint
      · exact ih2 x h

theorem pollTrace_stops_witness :
    pollTrace
        [CampaignStatus.active, CampaignStatus.scheduled, CampaignStatus.completed,
          CampaignStatus.active] =
      [CampaignStatus.active, CampaignStatus.scheduled, CampaignStatus.completed] := by
  have h :=
    pollTrace_stops_at_first_inactive
      [CampaignStatus.active, CampaignStatus.scheduled] CampaignStatus.completed
      [CampaignStatus.active] (by decide) (by decide) (by decide)
  simpa using h.1

/-! ## Recipient payload transform (from `NewCampaignPage.handleFinish`,
lines 889-917). JavaScript strings are modelled as their character lists so
that trimming, truthiness and splitting are fully computable. -/

/-- One parsed CSV row, reduced to the values the transform reads: the cell
under the column mapped to `email` and the cell under the column mapped to
`firstName`. An unmapped column or an absent cell is the empty list, which is
falsy, exactly as `row[csvColumn]` is falsy for an empty or missing cell. -/
structure CsvRow where
  emailValue : List Char
  nameValue : List Char
  deriving DecidableEq, Repr

/-- The recipient object fields the claim concerns. -/
structure Recipient where
  email : List Char
  name : List Char
  deriving DecidableEq, Repr

/-- JavaScript `String.prototype.trim`: whitespace removed from both ends. -/
def jsTrim (s : List Char) : List Char :=
  ((s.dropWhile Char.isWhitespace).reverse.dropWhile Char.isWhitespace).reverse

/-- JavaScript `email.split('@')[0]`: the characters before the first `@`
(the whole string when there is none). -/
def beforeAt (s : List Char) : List Char :=
  s.takeWhile (fun c => c ≠ '@')

/-- The field `recipient.email`: set to the trimmed cell value only when the cell is
truthy (`if (csvColumn && row[csvColumn]) recipient.email = String(...).trim()`);
unset is the empty list. -/
def mappedEmail (row : CsvRow) : List Char :=
  if row.emailValue.isEmpty then [] else jsTrim row.emailValue

/-- The field `recipient.name` as mapped from the `firstName` column, before the
fallback. -/
def mappedName (row : CsvRow) : List Char :=
  if row.nameValue.isEmpty then [] else jsTrim row.nameValue

/-- One recipient object after the fallback
`if (!recipient.name && recipient.email) recipient.name = recipient.email.split('@')[0]`. -/
def mkRecipient (row : CsvRow) : Recipient :=
  { email := mappedEmail row
    name :=
      if (mappedName row).isEmpty && !(mappedEmail row).isEmpty then
        beforeAt (mappedEmail row)
      else mappedName row }

/-- The payload recipients:
`.map(...)` then `.filter((recipient) => recipient.email)`. -/
def transformRecipients (rows : List CsvRow) : List Recipient :=
  (rows.map mkRecipient).filter (fun r => !r.email.isEmpty)

/-- Claim C10: the payload contains exactly the rows whose mapped email value
is non-empty (in order, so rows without one are silently dropped), every
included recipient has a non-empty email, and a recipient whose name column
was unmapped or empty gets the part of its email before the `@` as name. -/
theorem recipients_transform_spec (rows : List CsvRow) :
    (∀ r ∈ transformRecipients rows, r.email ≠ []) ∧
    transformRecipients rows =
      (rows.filter (fun row => !(mkRecipient row).email.isEmpty)).map mkRecipient ∧
    (∀ row ∈ rows, row.nameValue = [] → (mkRecipient row).email ≠ [] →
      (mkRecipient row).name = beforeAt (mkRecipient row).email) := by
  refine ⟨?_, ?_, ?_⟩
  · intro r hr
    have hp := List.of_mem_filter hr
    simpa using hp
  · induction rows with
    | nil => rfl
    | cons row rest ih =>
      by_cases h : (mkRecipient row).email.isEmpty <;>
        simp [transformRecipients, h] at ih ⊢ <;>
        exact ih
  · intro row _ hname hemail
    have hne : (mappedEmail row).isEmpty = false := by
      cases he : (mappedEmail row).isEmpty
      · rfl
      · exact absurd (List.isEmpty_iff.mp he) hemail
    simp [mkRecipient, mappedName, hname, hne]
